import Mathlib

/-!
Verification development for the openwhispr fast-paste helpers
(`linux-fast-paste.c` and `windows-fast-paste.c`).

The two C programs are shallowly embedded: pure helpers become Lean
functions; the OS interactions (display server, /dev/uinput ioctls,
Win32 calls) are modelled by explicit environments recording which
calls succeed, and each `main` returns its exit code together with a
trace of the externally visible actions it performs, in order.
-/

namespace FastPaste

/-- The three keys the engine ever synthesizes (left Ctrl, left Shift, V). -/
inductive Key where
  | ctrl
  | shift
  | v
  deriving DecidableEq, Repr

/-- ASCII lowercase view of a string, as the C `tolower`-based
comparisons see it (character list, each mapped to lowercase). -/
def lowerStr (s : String) : List Char :=
  s.data.map Char.toLower

/-- Character-list prefix test (models the inner loop of `strstr`). -/
def prefix_found : List Char → List Char → Bool
  | [], _ => true
  | _ :: _, [] => false
  | a :: as, b :: bs => decide (a = b) && prefix_found as bs

/-- `strstr_found n h` holds when needle `n` occurs contiguously in
haystack `h` (models C `strstr` returning non-NULL). -/
def strstr_found (needle : List Char) : List Char → Bool
  | [] => needle.isEmpty
  | c :: tl => prefix_found needle (c :: tl) || strstr_found needle tl

/-- Models glibc `strcasestr(hay, needle)` returning non-NULL:
case-insensitive substring search. -/
def strcasestr_found (hay needle : String) : Bool :=
  strstr_found (lowerStr needle) (lowerStr hay)

/-- Models `_stricmp(a, b) == 0`: case-insensitive string equality. -/
def striEq (a b : String) : Bool :=
  decide (lowerStr a = lowerStr b)

end FastPaste

namespace FastPaste.Linux

/-- The compiled-in registry `terminal_classes` of
`linux-fast-paste.c` (NULL terminator dropped). -/
def terminal_classes : List String :=
  ["konsole", "gnome-terminal", "terminal", "kitty", "alacritty",
   "terminator", "xterm", "urxvt", "rxvt", "tilix", "terminology",
   "wezterm", "foot", "st", "yakuake", "ghostty", "guake", "tilda",
   "hyper", "tabby", "sakura", "warp"]

/-- `is_terminal` from `linux-fast-paste.c`: NULL (`none`) yields
false, otherwise the first registry entry found case-insensitively as
a substring yields true. -/
def is_terminal (wm_class : Option String) : Bool :=
  match wm_class with
  | none => false
  | some s => terminal_classes.any (fun entry => strcasestr_found s entry)

/-- One `struct input_event` written by `emit`: either a key
press/release (`value` 1/0, modelled as `Bool`) or an `EV_SYN`
`SYN_REPORT` marker. -/
inductive UEvent where
  | key (k : Key) (pressed : Bool)
  | syn
  deriving DecidableEq, Repr

/-- The event-write sequence of the success path of
`paste_via_uinput`: Ctrl down, (Shift down), V down, V up, (Shift up),
Ctrl up, each followed by a sync report. -/
def uinput_events (use_shift : Bool) : List UEvent :=
  [.key .ctrl true, .syn]
    ++ (if use_shift then [.key .shift true, .syn] else [])
    ++ [.key .v true, .syn, .key .v false, .syn]
    ++ (if use_shift then [.key .shift false, .syn] else [])
    ++ [.key .ctrl false, .syn]

/-- Which of the kernel uinput calls succeed in this invocation.
`openErr = some e` means `open("/dev/uinput")` fails with errno `e`
(e.g. 13 = EACCES, permission denied); `none` means it returns a fd. -/
structure UinputEnv where
  openErr : Option Nat
  set_evbit_ok : Bool
  set_key_ctrl_ok : Bool
  set_key_shift_ok : Bool
  set_key_v_ok : Bool
  dev_setup_ok : Bool
  dev_create_ok : Bool
  deriving DecidableEq, Repr

/-- All capability/setup/creation ioctls of `paste_via_uinput` succeed. -/
def UinputEnv.setup_ok (env : UinputEnv) : Bool :=
  env.set_evbit_ok && env.set_key_ctrl_ok && env.set_key_shift_ok &&
    env.set_key_v_ok && env.dev_setup_ok && env.dev_create_ok

/-- Observable outcome of `paste_via_uinput`: its return value, the key
events written, and the fate of the fd / virtual device. -/
structure UinputResult where
  exitCode : Nat
  events : List UEvent
  opened : Bool
  fdClosed : Bool
  devCreated : Bool
  devDestroyed : Bool
  deriving DecidableEq, Repr

/-- `paste_via_uinput` from `linux-fast-paste.c`: open `/dev/uinput`
(failure → return 3); register EV_KEY plus the three key capabilities
(any ioctl failure → close fd, return 4); UI_DEV_SETUP and
UI_DEV_CREATE (failure → close fd, return 4); otherwise write the key
sequence, destroy the device, close the fd and return 0. -/
def paste_via_uinput (env : UinputEnv) (use_shift : Bool) : UinputResult :=
  match env.openErr with
  | some _ => ⟨3, [], false, false, false, false⟩
  | none =>
    if !(env.set_evbit_ok && env.set_key_ctrl_ok &&
          env.set_key_shift_ok && env.set_key_v_ok) then
      ⟨4, [], true, true, false, false⟩
    else if !(env.dev_setup_ok && env.dev_create_ok) then
      ⟨4, [], true, true, false, false⟩
    else
      ⟨0, uinput_events use_shift, true, true, true, true⟩

/-- Externally visible actions of the Linux binary, in program order. -/
inductive LAct where
  | openDisplay
  | queryXTest
  | sendActivateMsg (win : Nat)
  | flush
  | sleepUs (us : Nat)
  | setInputFocus (win : Nat)
  | resolveActive (win : Nat)
  | getClassHint (win : Nat)
  | classify (result : Bool)
  | fakeKey (k : Key) (pressed : Bool)
  | closeDisplay
  | uemit (e : UEvent)
  deriving DecidableEq, Repr

/-- Display-server state an invocation runs against: whether
`XOpenDisplay` / `XTestQueryExtension` succeed, what the
`_NET_ACTIVE_WINDOW` property query produces (`none` = property absent
or query failed, `some w` = a value `w` was read, 0 = `None`), the
`XGetInputFocus` answer, and the `XGetClassHint` answer for the
resolved window (`none` = call failed; otherwise res_name, res_class). -/
structure XEnv where
  displayOk : Bool
  xtestOk : Bool
  activeWinProp : Option Nat
  focusWin : Nat
  classHint : Option (String × String)
  deriving DecidableEq, Repr

/-- `get_active_window`: the root `_NET_ACTIVE_WINDOW` property if it
yields a non-`None` window, else the `XGetInputFocus` window. -/
def get_active_window (env : XEnv) : Nat :=
  match env.activeWinProp with
  | some w => if w ≠ 0 then w else env.focusWin
  | none => env.focusWin

/-- `activate_window`: send the `_NET_ACTIVE_WINDOW` client message to
the root window, flush, wait 50 ms, then force `XSetInputFocus` on the
target directly, flush, wait 20 ms. -/
def activate_window (win : Nat) : List LAct :=
  [.sendActivateMsg win, .flush, .sleepUs 50000,
   .setInputFocus win, .flush, .sleepUs 20000]

/-- The XTest synthesis tail of `main`: Ctrl down, (Shift down), 8 ms,
V down, 8 ms, V up, 8 ms, (Shift up), Ctrl up, flush, 20 ms, close. -/
def xtest_sequence (use_shift : Bool) : List LAct :=
  [.fakeKey .ctrl true]
    ++ (if use_shift then [.fakeKey .shift true] else [])
    ++ [.sleepUs 8000, .fakeKey .v true, .sleepUs 8000,
        .fakeKey .v false, .sleepUs 8000]
    ++ (if use_shift then [.fakeKey .shift false] else [])
    ++ [.fakeKey .ctrl false, .flush, .sleepUs 20000, .closeDisplay]

/-- Hexadecimal digit value, as `strtoul` accepts for base 16. -/
def hexVal (c : Char) : Option Nat :=
  if c.isDigit then some (c.toNat - 48)
  else if 97 ≤ c.toNat && c.toNat ≤ 102 then some (c.toNat - 87)
  else if 65 ≤ c.toNat && c.toNat ≤ 70 then some (c.toNat - 55)
  else none

/-- Octal digit value. -/
def octVal (c : Char) : Option Nat :=
  if 48 ≤ c.toNat && c.toNat ≤ 55 then some (c.toNat - 48) else none

/-- Decimal digit value. -/
def decVal (c : Char) : Option Nat :=
  if c.isDigit then some (c.toNat - 48) else none

/-- Accumulate digits in the given base, stopping at the first
non-digit, like `strtoul`. -/
def parseDigits (base : Nat) (val : Char → Option Nat) :
    List Char → Nat → Nat
  | [], acc => acc
  | c :: tl, acc =>
    match val c with
    | some d => parseDigits base val tl (acc * base + d)
    | none => acc

/-- `strtoul(s, NULL, 0)` on the unsigned numerals the `--window`
argument carries: leading spaces skipped, `0x`/`0X` prefix → base 16,
other leading `0` → base 8, otherwise base 10; no digits → 0. -/
def strtoul0 (s : String) : Nat :=
  let cs := s.data.dropWhile (fun c => decide (c = ' '))
  match cs with
  | '0' :: x :: rest =>
    if x = 'x' || x = 'X' then parseDigits 16 hexVal rest 0
    else parseDigits 8 octVal (x :: rest) 0
  | _ => parseDigits 10 decVal cs 0

/-- The flag state `main` accumulates from `argv`. -/
structure Args where
  force_terminal : Bool
  use_uinput : Bool
  target_window : Nat
  deriving DecidableEq, Repr

/-- Initial flag state (`target_window = None = 0`). -/
def args0 : Args := ⟨false, false, 0⟩

/-- The argument loop of `main`: `--terminal` and `--uinput` set their
flags; `--window` consumes the following argument through `strtoul`
base 0 (ignored when it is the last argument). -/
def parse_args : List String → Args → Args
  | [], acc => acc
  | a :: rest, acc =>
    if a = "--terminal" then parse_args rest { acc with force_terminal := true }
    else if a = "--uinput" then parse_args rest { acc with use_uinput := true }
    else if a = "--window" then
      match rest with
      | b :: rest2 => parse_args rest2 { acc with target_window := strtoul0 b }
      | [] => acc
    else parse_args rest acc

/-- The body of `main` after the argument loop, as exit code plus
action trace. `--uinput` delegates to `paste_via_uinput` with no
display interaction at all; otherwise: open the display (fail → 1),
query XTest (fail → 2), activate the `--window` target if given,
resolve the target window, determine the terminal flag (forced by
`--terminal`, else from the class hint when the window is non-`None`),
then run the XTest key sequence and exit 0. -/
def run_main (env : XEnv) (uenv : UinputEnv) (args : Args) :
    Nat × List LAct :=
  if args.use_uinput then
    let r := paste_via_uinput uenv args.force_terminal
    (r.exitCode, r.events.map LAct.uemit)
  else if !env.displayOk then (1, [.openDisplay])
  else if !env.xtestOk then (2, [.openDisplay, .queryXTest, .closeDisplay])
  else
    let pre : List LAct :=
      [.openDisplay, .queryXTest]
        ++ (if args.target_window ≠ 0 then activate_window args.target_window
            else [])
    let win : Nat :=
      if args.target_window ≠ 0 then args.target_window
      else get_active_window env
    let hintActs : List LAct :=
      if !args.force_terminal && win ≠ 0 then [.getClassHint win] else []
    let use_shift : Bool :=
      if !args.force_terminal && win ≠ 0 then
        match env.classHint with
        | some hint => is_terminal (some hint.2) || is_terminal (some hint.1)
        | none => args.force_terminal
      else args.force_terminal
    (0, pre ++ [.resolveActive win] ++ hintActs ++ [.classify use_shift]
          ++ xtest_sequence use_shift)

/-- `main` of `linux-fast-paste.c` (built with uinput support): run
the argument loop, then the selected backend. -/
def main (env : XEnv) (uenv : UinputEnv) (argv : List String) :
    Nat × List LAct :=
  run_main env uenv (parse_args argv args0)

end FastPaste.Linux

namespace FastPaste.Windows

open FastPaste

/-- The compiled-in registry `TERMINAL_CLASSES` of
`windows-fast-paste.c` (NULL terminator dropped). -/
def TERMINAL_CLASSES : List String :=
  ["ConsoleWindowClass", "CASCADIA_HOSTING_WINDOW_CLASS", "mintty",
   "VirtualConsoleClass", "PuTTY", "Alacritty",
   "org.wezfurlong.wezterm", "Hyper", "TMobaXterm", "kitty"]

/-- `IsTerminalClass`: true when `_stricmp` finds the class name equal
(case-insensitively, exact match) to some registry entry. -/
def IsTerminalClass (className : String) : Bool :=
  TERMINAL_CLASSES.any (fun e => striEq className e)

/-- The four-record `INPUT` array of `SendPasteNormal`:
Ctrl down, V down, V up, Ctrl up. -/
def normal_inputs : List (Key × Bool) :=
  [(.ctrl, true), (.v, true), (.v, false), (.ctrl, false)]

/-- The six-record `INPUT` array of `SendPasteTerminal`:
Ctrl down, Shift down, V down, V up, Shift up, Ctrl up. -/
def terminal_inputs : List (Key × Bool) :=
  [(.ctrl, true), (.shift, true), (.v, true),
   (.v, false), (.shift, false), (.ctrl, false)]

/-- Externally visible actions of the Windows binary, in order. -/
inductive WAct where
  | getForeground
  | getClassName
  | classifyW (result : Bool)
  | sendInput (inputs : List (Key × Bool))
  | sleepMs (ms : Nat)
  | printOut (s : String)
  deriving DecidableEq, Repr

/-- OS state a Windows invocation runs against: the foreground window
(`none` = `GetForegroundWindow` returned NULL), its class name
(`none` = `GetClassNameA` returned 0), and whether `SendInput` accepts
the full event array. -/
structure WinEnv where
  foreground : Option Nat
  className : Option String
  sendOk : Bool
  deriving DecidableEq, Repr

/-- `SendPasteNormal`: submit the 4-record array in one `SendInput`
call; 0 when all were accepted, else 1. -/
def SendPasteNormal (env : WinEnv) : Nat × List WAct :=
  ((if env.sendOk then 0 else 1), [.sendInput normal_inputs])

/-- `SendPasteTerminal`: submit the 6-record array in one `SendInput`
call; 0 when all were accepted, else 1. -/
def SendPasteTerminal (env : WinEnv) : Nat × List WAct :=
  ((if env.sendOk then 0 else 1), [.sendInput terminal_inputs])

/-- `main` of `windows-fast-paste.c`: parse `--detect-only`; no
foreground window → 2; no class name → 1; classify; with
`--detect-only` print the class and verdict and exit 0; otherwise
sleep 5 ms, send the matching input array (incomplete submission → 1),
sleep 20 ms, print `PASTE_OK` and exit 0. -/
def main (env : WinEnv) (argv : List String) : Nat × List WAct :=
  let detectOnly := argv.any (fun a => decide (a = "--detect-only"))
  match env.foreground with
  | none => (2, [.getForeground])
  | some _ =>
    match env.className with
    | none => (1, [.getForeground, .getClassName])
    | some cn =>
      let t := IsTerminalClass cn
      let base : List WAct := [.getForeground, .getClassName, .classifyW t]
      if detectOnly then
        (0, base ++ [.printOut ("WINDOW_CLASS " ++ cn),
                     .printOut ("IS_TERMINAL " ++
                       (if t then "true" else "false"))])
      else
        let r := if t then SendPasteTerminal env else SendPasteNormal env
        if r.1 ≠ 0 then (1, base ++ [.sleepMs 5] ++ r.2)
        else
          (0, base ++ [.sleepMs 5] ++ r.2
                ++ [.sleepMs 20,
                    .printOut ("PASTE_OK " ++ cn ++ " " ++
                      (if t then "ctrl+shift+v" else "ctrl+v"))])

end FastPaste.Windows

namespace FastPaste

/-- Number of occurrences of a key event in a sequence. -/
def countEv (l : List (Key × Bool)) (e : Key × Bool) : Nat :=
  l.countP (fun x => decide (x = e))

/-- Every press in the sequence has a release of the same key strictly
later in the sequence. -/
def matched_releases : List (Key × Bool) → Bool
  | [] => true
  | (k, true) :: rest =>
    rest.any (fun x => decide (x = (k, false))) && matched_releases rest
  | (_, false) :: rest => matched_releases rest

/-- Index of the first occurrence of a key event (length if absent). -/
def firstIdx (l : List (Key × Bool)) (e : Key × Bool) : Nat :=
  l.findIdx (fun x => decide (x = e))

/-- Per-key press count equals release count, for each of the three keys. -/
def press_counts_ok (l : List (Key × Bool)) : Bool :=
  decide (countEv l (.ctrl, true) = countEv l (.ctrl, false)) &&
  decide (countEv l (.shift, true) = countEv l (.shift, false)) &&
  decide (countEv l (.v, true) = countEv l (.v, false))

/-- Modifier nesting: V pressed only after Ctrl (and Shift, when used),
V released before Ctrl (and Shift, when used) are released. -/
def nesting_ok (use_shift : Bool) (l : List (Key × Bool)) : Bool :=
  decide (firstIdx l (.ctrl, true) < firstIdx l (.v, true)) &&
  (!use_shift || decide (firstIdx l (.shift, true) < firstIdx l (.v, true))) &&
  decide (firstIdx l (.v, false) < firstIdx l (.ctrl, false)) &&
  (!use_shift || decide (firstIdx l (.v, false) < firstIdx l (.shift, false)))

/-- The full key-sequence invariant of the spec. -/
def seq_ok (use_shift : Bool) (l : List (Key × Bool)) : Bool :=
  matched_releases l && press_counts_ok l && nesting_ok use_shift l

/-- Key press/release events of a Linux display-server trace. -/
def keysOfX (t : List Linux.LAct) : List (Key × Bool) :=
  t.filterMap (fun a =>
    match a with
    | .fakeKey k p => some (k, p)
    | _ => none)

/-- Key press/release events of a uinput event-write list. -/
def keysOfU (es : List Linux.UEvent) : List (Key × Bool) :=
  es.filterMap (fun e =>
    match e with
    | .key k p => some (k, p)
    | .syn => none)

/-- A Linux trace action that synthesizes input (XTest fake key or a
uinput device write). -/
def isSynthAct : Linux.LAct → Bool
  | .fakeKey _ _ => true
  | .uemit _ => true
  | _ => false

/-- The window-resolution step of the Linux trace. -/
def isResolveAct : Linux.LAct → Bool
  | .resolveActive _ => true
  | _ => false

/-- The terminal-classification step of the Linux trace. -/
def isClassifyAct : Linux.LAct → Bool
  | .classify _ => true
  | _ => false

/-- An input-queue submission in the Windows trace. -/
def isWSendAct : Windows.WAct → Bool
  | .sendInput _ => true
  | _ => false

/-- The foreground-window resolution step of the Windows trace. -/
def isWForegroundAct : Windows.WAct → Bool
  | .getForeground => true
  | _ => false

/-- The classification step of the Windows trace. -/
def isWClassifyAct : Windows.WAct → Bool
  | .classifyW _ => true
  | _ => false

/-- A display environment where everything succeeds. -/
def xenv_ok : Linux.XEnv := ⟨true, true, some 5, 5, some ("nav", "firefox")⟩

/-- A uinput environment where everything succeeds. -/
def uenv_ok : Linux.UinputEnv := ⟨none, true, true, true, true, true, true⟩

/-- A uinput environment where `open("/dev/uinput")` is denied with
errno 13 (EACCES, permission denied). -/
def uenv_denied : Linux.UinputEnv := ⟨some 13, true, true, true, true, true, true⟩

/-- A uinput environment where the `UI_DEV_CREATE` ioctl fails. -/
def uenv_create_fail : Linux.UinputEnv := ⟨none, true, true, true, true, true, false⟩

/-- A Windows environment with a resolvable non-terminal foreground window. -/
def wenv_ok : Windows.WinEnv := ⟨some 7, some "Notepad", true⟩

end FastPaste

namespace FastPaste

/-- `prefix_found` agrees with the list prefix relation. -/
theorem prefix_found_iff (n h : List Char) : prefix_found n h = true ↔ n <+: h := by
  induction n generalizing h with
  | nil => simp [prefix_found, List.nil_prefix]
  | cons a as ih =>
    cases h with
    | nil => simp [prefix_found, List.prefix_nil]
    | cons b bs => simp [prefix_found, List.cons_prefix_cons, ih]

/-- `strstr_found` agrees with the contiguous-sublist relation. -/
theorem strstr_found_iff (n h : List Char) : strstr_found n h = true ↔ n <:+: h := by
  induction h with
  | nil => simp [strstr_found, List.isEmpty_iff, List.infix_nil]
  | cons c tl ih =>
    simp [strstr_found, prefix_found_iff, ih, List.infix_cons_iff]

/-- C1: `is_terminal` returns true for exactly the strings that
case-insensitively contain a registry entry as a substring, false on
null and empty input, and classifies "gnome-terminal-server" as a
terminal but "firefox" not. -/
theorem C1_is_terminal_substring_classifier :
    Linux.is_terminal none = false ∧
    Linux.is_terminal (some "") = false ∧
    (∀ s : String, Linux.is_terminal (some s) = true ↔
      ∃ e ∈ Linux.terminal_classes, lowerStr e <:+: lowerStr s) ∧
    Linux.is_terminal (some "gnome-terminal-server") = true ∧
    Linux.is_terminal (some "firefox") = false := by
  refine ⟨rfl, by decide, ?_, by decide, by decide⟩
  intro s
  simp [Linux.is_terminal, List.any_eq_true, strcasestr_found, strstr_found_iff]

/-- Witness for C1 at a concrete input: "XTerm" contains registry entry
"xterm" case-insensitively, so it classifies as a terminal. -/
theorem C1_witness : Linux.is_terminal (some "XTerm") = true :=
  (C1_is_terminal_substring_classifier.2.2.1 "XTerm").mpr
    ⟨"xterm", by decide, (strstr_found_iff _ _).mp (by decide)⟩

/-- C2: every synthesized key sequence of the three backends, in both
variants, is balanced (press counts equal release counts per key,
every press has a later release) and nests V strictly inside the held
modifiers. -/
theorem C2_sequences_well_nested : ∀ use_shift : Bool,
    seq_ok use_shift (keysOfX (Linux.xtest_sequence use_shift)) = true ∧
    seq_ok use_shift (keysOfU (Linux.uinput_events use_shift)) = true ∧
    seq_ok false Windows.normal_inputs = true ∧
    seq_ok true Windows.terminal_inputs = true := by decide

/-- C4: `IsTerminalClass` is exact (not substring) case-insensitive
equality against the Windows registry; "ConsoleWindowClass" matches,
"Chrome_WidgetWin_1" does not, and a proper superstring of an entry
such as "mintty-extra" does not. -/
theorem C4_IsTerminalClass_exact_equality :
    (∀ cn : String, Windows.IsTerminalClass cn = true ↔
      ∃ e ∈ Windows.TERMINAL_CLASSES, lowerStr cn = lowerStr e) ∧
    Windows.IsTerminalClass "ConsoleWindowClass" = true ∧
    Windows.IsTerminalClass "Chrome_WidgetWin_1" = false ∧
    Windows.IsTerminalClass "mintty-extra" = false := by
  refine ⟨?_, by decide, by decide, by decide⟩
  intro cn
  simp [Windows.IsTerminalClass, List.any_eq_true, striEq]

/-- Witness for C4 at a concrete input: "PUTTY" equals registry entry
"PuTTY" up to case, so it classifies as a terminal. -/
theorem C4_witness : Windows.IsTerminalClass "PUTTY" = true :=
  (C4_IsTerminalClass_exact_equality.1 "PUTTY").mpr ⟨"PuTTY", by decide, by decide⟩

end FastPaste

namespace FastPaste

/-- `parse_args` on exactly `["--uinput"]` selects the uinput backend. -/
theorem parse_uinput_only :
    Linux.parse_args ["--uinput"] Linux.args0 = ⟨false, true, 0⟩ := rfl

/-- With `--uinput`, `main` is exactly `paste_via_uinput` with the
shift variant taken from `--terminal` (here absent, so false). -/
theorem main_uinput_eq (xenv : Linux.XEnv) (uenv : Linux.UinputEnv) :
    Linux.main xenv uenv ["--uinput"] =
      ((Linux.paste_via_uinput uenv false).exitCode,
       (Linux.paste_via_uinput uenv false).events.map Linux.LAct.uemit) := rfl

/-- Counterexample to C3: when permission to `/dev/uinput` is denied,
`open` fails with EACCES (errno 13) and the binary exits with code 3,
not 4 (no events are emitted). -/
theorem C3_counterexample :
    (Linux.main xenv_ok uenv_denied ["--uinput"]).1 = 3 ∧
    (Linux.main xenv_ok uenv_denied ["--uinput"]).1 ≠ 4 ∧
    (Linux.main xenv_ok uenv_denied ["--uinput"]).2 = [] := by decide

/-- C3 (amended): with `--uinput`, a failed `open` of `/dev/uinput`
(e.g. permission denied) exits with code 3 and emits no key events; a
failed capability/setup/creation ioctl exits with code 4 and emits no
key events. -/
theorem C3_uinput_failure_codes :
    ∀ (xenv : Linux.XEnv) (uenv : Linux.UinputEnv) (e : Nat),
    (uenv.openErr = some e → Linux.main xenv uenv ["--uinput"] = (3, [])) ∧
    (uenv.openErr = none → uenv.setup_ok = false →
      Linux.main xenv uenv ["--uinput"] = (4, [])) := by
  intro xenv uenv e
  obtain ⟨oe, a1, a2, a3, a4, a5, a6⟩ := uenv
  rw [main_uinput_eq]
  cases oe with
  | some e2 => simp [Linux.paste_via_uinput, Linux.UinputEnv.setup_ok]
  | none =>
    cases a1 <;> cases a2 <;> cases a3 <;> cases a4 <;> cases a5 <;> cases a6 <;>
      simp [Linux.paste_via_uinput, Linux.UinputEnv.setup_ok, Linux.uinput_events]

/-- Witness for the amended C3: a permission-denied open exits 3 with
an empty trace; a failed `UI_DEV_CREATE` ioctl exits 4 with an empty
trace. -/
theorem C3_witness :
    Linux.main xenv_ok uenv_denied ["--uinput"] = (3, []) ∧
    Linux.main xenv_ok uenv_create_fail ["--uinput"] = (4, []) :=
  ⟨(C3_uinput_failure_codes xenv_ok uenv_denied 13).1 rfl,
   (C3_uinput_failure_codes xenv_ok uenv_create_fail 0).2 rfl (by decide)⟩

/-- C5: whenever `paste_via_uinput` has opened the `/dev/uinput` fd, it
closes it on the path it returns along, and any setup-ioctl failure
returns the error status 4 having emitted no key events. -/
theorem C5_fd_closed_on_every_path :
    ∀ (uenv : Linux.UinputEnv) (use_shift : Bool),
    ((Linux.paste_via_uinput uenv use_shift).opened = true →
      (Linux.paste_via_uinput uenv use_shift).fdClosed = true) ∧
    (uenv.openErr = none → uenv.setup_ok = false →
      (Linux.paste_via_uinput uenv use_shift).exitCode = 4 ∧
      (Linux.paste_via_uinput uenv use_shift).events = []) := by
  intro uenv b
  obtain ⟨oe, a1, a2, a3, a4, a5, a6⟩ := uenv
  cases oe with
  | some e => simp [Linux.paste_via_uinput, Linux.UinputEnv.setup_ok]
  | none =>
    cases a1 <;> cases a2 <;> cases a3 <;> cases a4 <;> cases a5 <;> cases a6 <;>
      simp [Linux.paste_via_uinput, Linux.UinputEnv.setup_ok]

/-- Witness for C5: with a failing `UI_DEV_CREATE`, the fd is closed,
the status is 4 and no events were written. -/
theorem C5_witness :
    (Linux.paste_via_uinput uenv_create_fail true).fdClosed = true ∧
    (Linux.paste_via_uinput uenv_create_fail true).exitCode = 4 ∧
    (Linux.paste_via_uinput uenv_create_fail true).events = [] :=
  ⟨(C5_fd_closed_on_every_path uenv_create_fail true).1 rfl,
   (C5_fd_closed_on_every_path uenv_create_fail true).2 rfl (by decide)⟩

end FastPaste

namespace FastPaste

/-- A display environment where `XOpenDisplay` fails. -/
def xenv_nodisplay : Linux.XEnv := ⟨false, false, none, 0, none⟩

/-- A display environment where the XTest extension is missing. -/
def xenv_noxtest : Linux.XEnv := ⟨true, false, none, 0, none⟩

/-- C7: on the display-server backend (no `--uinput`), a failed display
connection exits 1 and a missing XTest extension exits 2, in both
cases synthesizing no key events. -/
theorem C7_fails_closed_without_display_or_xtest :
    ∀ (xenv : Linux.XEnv) (uenv : Linux.UinputEnv) (argv : List String),
    (Linux.parse_args argv Linux.args0).use_uinput = false →
    (xenv.displayOk = false →
      (Linux.main xenv uenv argv).1 = 1 ∧
      (Linux.main xenv uenv argv).2.any isSynthAct = false) ∧
    (xenv.displayOk = true → xenv.xtestOk = false →
      (Linux.main xenv uenv argv).1 = 2 ∧
      (Linux.main xenv uenv argv).2.any isSynthAct = false) := by
  intro xenv uenv argv h
  constructor
  · intro hd
    simp [Linux.main, Linux.run_main, h, hd, isSynthAct]
  · intro hd hx
    simp [Linux.main, Linux.run_main, h, hd, hx, isSynthAct]

/-- Witness for C7: concrete environments exercising both failure
exits, each with a synthesis-free trace. -/
theorem C7_witness :
    ((Linux.main xenv_nodisplay uenv_ok []).1 = 1 ∧
      (Linux.main xenv_nodisplay uenv_ok []).2.any isSynthAct = false) ∧
    ((Linux.main xenv_noxtest uenv_ok []).1 = 2 ∧
      (Linux.main xenv_noxtest uenv_ok []).2.any isSynthAct = false) :=
  ⟨(C7_fails_closed_without_display_or_xtest xenv_nodisplay uenv_ok [] rfl).1 rfl,
   (C7_fails_closed_without_display_or_xtest xenv_noxtest uenv_ok [] rfl).2 rfl rfl⟩

/-- C8: with `--detect-only` and a resolvable foreground window with a
non-empty class, the Windows binary prints the class and verdict,
submits nothing to the input queue, and exits 0. -/
theorem C8_detect_only_prints_without_synthesis :
    ∀ (wenv : Windows.WinEnv) (argv : List String) (h : Nat) (cn : String),
    argv.any (fun a => decide (a = "--detect-only")) = true →
    wenv.foreground = some h → wenv.className = some cn → cn ≠ "" →
    Windows.main wenv argv =
      (0, [.getForeground, .getClassName,
           .classifyW (Windows.IsTerminalClass cn),
           .printOut ("WINDOW_CLASS " ++ cn),
           .printOut ("IS_TERMINAL " ++
             (if Windows.IsTerminalClass cn then "true" else "false"))]) ∧
    (Windows.main wenv argv).2.any isWSendAct = false := by
  intro wenv argv hw cn hdet hfg hcn hne
  have heq : Windows.main wenv argv =
      (0, [.getForeground, .getClassName,
           .classifyW (Windows.IsTerminalClass cn),
           .printOut ("WINDOW_CLASS " ++ cn),
           .printOut ("IS_TERMINAL " ++
             (if Windows.IsTerminalClass cn then "true" else "false"))]) := by
    simp [Windows.main, hdet, hfg, hcn]
  refine ⟨heq, ?_⟩
  rw [heq]
  cases ht : Windows.IsTerminalClass cn <;> simp [isWSendAct, ht]

/-- A Windows environment whose foreground window is a console. -/
def wenv_console : Windows.WinEnv := ⟨some 7, some "ConsoleWindowClass", true⟩

/-- Witness for C8 at a concrete environment and argv. -/
theorem C8_witness :
    Windows.main wenv_console ["--detect-only"] =
      (0, [.getForeground, .getClassName,
           .classifyW (Windows.IsTerminalClass "ConsoleWindowClass"),
           .printOut ("WINDOW_CLASS " ++ "ConsoleWindowClass"),
           .printOut ("IS_TERMINAL " ++
             (if Windows.IsTerminalClass "ConsoleWindowClass" then "true"
              else "false"))]) ∧
    (Windows.main wenv_console ["--detect-only"]).2.any isWSendAct = false :=
  C8_detect_only_prints_without_synthesis wenv_console ["--detect-only"] 7
    "ConsoleWindowClass" (by decide) rfl rfl (by decide)

end FastPaste

namespace FastPaste

/-- Counterexample to C6: invoked as `--uinput` with a working virtual
device, the binary synthesizes input without any window resolution or
terminal classification having occurred. -/
theorem C6_counterexample :
    (Linux.main xenv_ok uenv_ok ["--uinput"]).2.any isSynthAct = true ∧
    (Linux.main xenv_ok uenv_ok ["--uinput"]).2.any isResolveAct = false ∧
    (Linux.main xenv_ok uenv_ok ["--uinput"]).2.any isClassifyAct = false := by
  decide

/-- On the display-server path the trace puts window resolution and
the terminal/non-terminal determination strictly before all key
synthesis. -/
theorem run_main_display_order (xenv : Linux.XEnv) (uenv : Linux.UinputEnv)
    (ft : Bool) (tw : Nat)
    (hd : xenv.displayOk = true) (hx : xenv.xtestOk = true) :
    (Linux.run_main xenv uenv ⟨ft, false, tw⟩).2.findIdx isResolveAct <
      (Linux.run_main xenv uenv ⟨ft, false, tw⟩).2.findIdx isSynthAct ∧
    (Linux.run_main xenv uenv ⟨ft, false, tw⟩).2.findIdx isClassifyAct <
      (Linux.run_main xenv uenv ⟨ft, false, tw⟩).2.findIdx isSynthAct ∧
    (Linux.run_main xenv uenv ⟨ft, false, tw⟩).2.any isSynthAct = true := by
  by_cases htw : tw = 0
  · subst htw
    by_cases hw : Linux.get_active_window xenv = 0
    · cases ft <;> simp [Linux.run_main, hd, hx, hw] <;>
        exact of_decide_eq_true rfl
    · cases ft
      · cases hch : xenv.classHint with
        | none =>
          simp [Linux.run_main, hd, hx, hw, hch]
          exact of_decide_eq_true rfl
        | some p =>
          cases hus : (Linux.is_terminal (some p.2) || Linux.is_terminal (some p.1)) <;>
            simp [Linux.run_main, hd, hx, hw, hch, hus] <;>
            exact of_decide_eq_true rfl
      · simp [Linux.run_main, hd, hx, hw]
        exact of_decide_eq_true rfl
  · cases ft
    · cases hch : xenv.classHint with
      | none =>
        simp [Linux.run_main, hd, hx, htw, hch, Linux.activate_window]
        exact of_decide_eq_true rfl
      | some p =>
        cases hus : (Linux.is_terminal (some p.2) || Linux.is_terminal (some p.1)) <;>
          simp [Linux.run_main, hd, hx, htw, hch, hus, Linux.activate_window] <;>
          exact of_decide_eq_true rfl
    · simp [Linux.run_main, hd, hx, htw, Linux.activate_window]
      exact of_decide_eq_true rfl

end FastPaste

namespace FastPaste

/-- C6 (amended): on the Linux display-server backend and on Windows,
window resolution and terminal classification occur strictly before
key synthesis in every synthesizing invocation; the `--uinput` backend
instead synthesizes with no window resolution or classification at
all, taking its variant solely from `--terminal`. -/
theorem C6_resolution_before_synthesis :
    (∀ (xenv : Linux.XEnv) (uenv : Linux.UinputEnv) (argv : List String),
      (Linux.parse_args argv Linux.args0).use_uinput = false →
      xenv.displayOk = true → xenv.xtestOk = true →
      (Linux.main xenv uenv argv).2.findIdx isResolveAct <
        (Linux.main xenv uenv argv).2.findIdx isSynthAct ∧
      (Linux.main xenv uenv argv).2.findIdx isClassifyAct <
        (Linux.main xenv uenv argv).2.findIdx isSynthAct ∧
      (Linux.main xenv uenv argv).2.any isSynthAct = true) ∧
    (∀ (xenv : Linux.XEnv) (uenv : Linux.UinputEnv) (argv : List String),
      (Linux.parse_args argv Linux.args0).use_uinput = true →
      (Linux.main xenv uenv argv).2.any isResolveAct = false ∧
      (Linux.main xenv uenv argv).2.any isClassifyAct = false) ∧
    (∀ (wenv : Windows.WinEnv) (argv : List String),
      (Windows.main wenv argv).2.any isWSendAct = true →
      (Windows.main wenv argv).2.findIdx isWForegroundAct <
        (Windows.main wenv argv).2.findIdx isWSendAct ∧
      (Windows.main wenv argv).2.findIdx isWClassifyAct <
        (Windows.main wenv argv).2.findIdx isWSendAct) := by
  refine ⟨?_, ?_, ?_⟩
  · intro xenv uenv argv h hd hx
    unfold Linux.main
    generalize hargs : Linux.parse_args argv Linux.args0 = args at h ⊢
    obtain ⟨ft, ui, tw⟩ := args
    simp only [Linux.Args.use_uinput] at h
    subst h
    exact run_main_display_order xenv uenv ft tw hd hx
  · intro xenv uenv argv h
    unfold Linux.main
    generalize hargs : Linux.parse_args argv Linux.args0 = args at h ⊢
    obtain ⟨ft, ui, tw⟩ := args
    simp only [Linux.Args.use_uinput] at h
    subst h
    simp [Linux.run_main, List.any_map, isResolveAct, isClassifyAct,
      Function.comp]
  · intro wenv argv hsend
    obtain ⟨fg, cno, sok⟩ := wenv
    cases fg with
    | none => simp [Windows.main, isWSendAct] at hsend
    | some hw =>
      cases cno with
      | none => simp [Windows.main, isWSendAct] at hsend
      | some cn =>
        cases hdet : argv.any (fun a => decide (a = "--detect-only")) with
        | false =>
          cases hterm : Windows.IsTerminalClass cn <;> cases sok <;>
            simp [Windows.main, hdet, hterm, Windows.SendPasteNormal,
              Windows.SendPasteTerminal] <;>
            exact of_decide_eq_true rfl
        | true =>
          simp [Windows.main, hdet, isWSendAct] at hsend

/-- Witness for the amended C6 at concrete environments: default
invocation resolves before synthesizing; `--uinput` never resolves;
the Windows synthesis path resolves before submitting input. -/
theorem C6_witness :
    ((Linux.main xenv_ok uenv_ok []).2.findIdx isResolveAct <
       (Linux.main xenv_ok uenv_ok []).2.findIdx isSynthAct) ∧
    ((Linux.main xenv_ok uenv_ok ["--uinput"]).2.any isResolveAct = false) ∧
    ((Windows.main wenv_console []).2.findIdx isWForegroundAct <
       (Windows.main wenv_console []).2.findIdx isWSendAct) :=
  ⟨(C6_resolution_before_synthesis.1 xenv_ok uenv_ok [] rfl rfl rfl).1,
   (C6_resolution_before_synthesis.2.1 xenv_ok uenv_ok ["--uinput"] rfl).1,
   (C6_resolution_before_synthesis.2.2 wenv_console [] (by decide)).1⟩

end FastPaste

namespace FastPaste

/-- The argument loop turns `--window <s>` into a target window parsed
by `strtoul` base 0. -/
theorem parse_window_only (s : String) :
    Linux.parse_args ["--window", s] Linux.args0 = ⟨false, false, Linux.strtoul0 s⟩ := rfl

/-- C9: the `--window` id is parsed in any numeric base (hex, decimal,
octal), and a non-`None` target makes `main` run the activation
protocol — client message to root, flush, 50 ms wait, then direct
input-focus set — before any key synthesis. -/
theorem C9_window_activation_before_synthesis :
    Linux.strtoul0 "0x2400007" = 37748743 ∧
    Linux.strtoul0 "26" = 26 ∧
    Linux.strtoul0 "0x1a" = 26 ∧
    Linux.strtoul0 "032" = 26 ∧
    ∀ (xenv : Linux.XEnv) (uenv : Linux.UinputEnv) (s : String),
      xenv.displayOk = true → xenv.xtestOk = true → Linux.strtoul0 s ≠ 0 →
      ∃ rest, (Linux.main xenv uenv ["--window", s]).2 =
          [Linux.LAct.openDisplay, Linux.LAct.queryXTest]
            ++ Linux.activate_window (Linux.strtoul0 s) ++ rest ∧
        Linux.activate_window (Linux.strtoul0 s) =
          [Linux.LAct.sendActivateMsg (Linux.strtoul0 s), Linux.LAct.flush,
           Linux.LAct.sleepUs 50000,
           Linux.LAct.setInputFocus (Linux.strtoul0 s), Linux.LAct.flush,
           Linux.LAct.sleepUs 20000] ∧
        rest.any isSynthAct = true := by
  refine ⟨rfl, rfl, rfl, rfl, ?_⟩
  intro xenv uenv s hd hx hs
  rw [Linux.main, parse_window_only]
  cases hch : xenv.classHint with
  | none =>
    simp [Linux.run_main, hd, hx, hs, hch, Linux.activate_window]
    exact of_decide_eq_true rfl
  | some p =>
    cases hus : (Linux.is_terminal (some p.2) || Linux.is_terminal (some p.1)) <;>
      simp [Linux.run_main, hd, hx, hs, hch, hus, Linux.activate_window] <;>
      exact of_decide_eq_true rfl

end FastPaste

namespace FastPaste

/-- Witness for C9: activating window 0x2400007 before synthesis. -/
theorem C9_witness :
    ∃ rest, (Linux.main xenv_ok uenv_ok ["--window", "0x2400007"]).2 =
        [Linux.LAct.openDisplay, Linux.LAct.queryXTest]
          ++ Linux.activate_window (Linux.strtoul0 "0x2400007") ++ rest ∧
      Linux.activate_window (Linux.strtoul0 "0x2400007") =
        [Linux.LAct.sendActivateMsg (Linux.strtoul0 "0x2400007"), Linux.LAct.flush,
         Linux.LAct.sleepUs 50000,
         Linux.LAct.setInputFocus (Linux.strtoul0 "0x2400007"), Linux.LAct.flush,
         Linux.LAct.sleepUs 20000] ∧
      rest.any isSynthAct = true :=
  C9_window_activation_before_synthesis.2.2.2.2 xenv_ok uenv_ok "0x2400007"
    rfl rfl (by decide)

/-- A display environment where both window queries come back empty
and no class hint is readable. -/
def xenv_bare : Linux.XEnv := ⟨true, true, none, 0, none⟩

/-- C10: when window resolution fails (both queries yield no window) or
the class hint is unreadable, and nothing forces the terminal variant,
the display-server backend still synthesizes plain Ctrl+V and exits 0,
indistinguishable from a fully resolved invocation. -/
theorem C10_resolution_failure_is_silent :
    ∀ (xenv : Linux.XEnv) (uenv : Linux.UinputEnv),
    xenv.displayOk = true → xenv.xtestOk = true →
    ((xenv.activeWinProp = none ∨ xenv.activeWinProp = some 0) ∧ xenv.focusWin = 0
        ∨ xenv.classHint = none) →
    (Linux.main xenv uenv []).1 = 0 ∧
    keysOfX (Linux.main xenv uenv []).2 =
      [(Key.ctrl, true), (Key.v, true), (Key.v, false), (Key.ctrl, false)] := by
  intro xenv uenv hd hx hfail
  have hargs : Linux.parse_args [] Linux.args0 = Linux.args0 := rfl
  rw [Linux.main, hargs]
  rcases hfail with ⟨hprop, hfocus⟩ | hch
  · have hw : Linux.get_active_window xenv = 0 := by
      rcases hprop with h1 | h1 <;> simp [Linux.get_active_window, h1, hfocus]
    simp [Linux.run_main, Linux.args0, hd, hx, hw]
    exact of_decide_eq_true rfl
  · by_cases hw : Linux.get_active_window xenv = 0
    · simp [Linux.run_main, Linux.args0, hd, hx, hw]
      exact of_decide_eq_true rfl
    · simp [Linux.run_main, Linux.args0, hd, hx, hw, hch]
      exact of_decide_eq_true rfl

/-- Witness for C10: an environment with no resolvable window and no
class hint still exits 0 after a plain Ctrl+V. -/
theorem C10_witness :
    (Linux.main xenv_bare uenv_ok []).1 = 0 ∧
    keysOfX (Linux.main xenv_bare uenv_ok []).2 =
      [(Key.ctrl, true), (Key.v, true), (Key.v, false), (Key.ctrl, false)] :=
  C10_resolution_failure_is_silent xenv_bare uenv_ok rfl rfl
    (Or.inl ⟨Or.inl rfl, rfl⟩)

end FastPaste
